import Mathlib

set_option maxRecDepth 100000

/-!
Verification of the DSL-to-PNG rendering service.

The program under study consists of two JavaScript modules:
* `renderHtml.js` — a pure function `renderDSLtoHTML` compiling a DSL
  document (canvas size, a list of elements, custom css) to an HTML string;
* `server.js` — an express handler for `POST /render` that compiles the
  request body and drives a remote browser (connect, new page, set
  viewport, set content, screenshot, close page) to produce a PNG.

Everything below is a shallow embedding of those two files: each Lean
definition mirrors one construct of the source, keeping the source's
strings byte for byte (braces in string literals are written with the
escapes \x7b and \x7d).
-/

namespace DslToPng

/-- The `style` sub-object of an element. `renderElement` reads exactly the
four fields `background`, `color`, `fontSize`, `fontWeight` from it. -/
structure ElStyle where
  background : Option String := none
  color : Option String := none
  fontSize : Option Int := none
  fontWeight : Option String := none
deriving DecidableEq

/-- A nested `layout` object as it appears in input documents following the
repository's DSL reference (`layout: \x7bx, y, width, height\x7d`). The
compiler in `renderHtml.js` never reads this field; it is carried here so
that documents written in the documented format can be expressed. -/
structure Layout where
  x : Option Int := none
  y : Option Int := none
  width : Option Int := none
  height : Option Int := none
deriving DecidableEq

/-- A DSL element as a JSON object. The fields are exactly those that
either `renderHtml.js` reads (`type`, `x`, `y`, `width`, `height`,
`style`, `class`, `label`, `text`, `placeholder`) or that input documents
of the repository's DSL reference carry (`layout`, `children`). `class`
is a Lean keyword, so that field is named `cls` here. -/
inductive Element : Type where
  | mk : (type : String) → (x y width height : Option Int) →
      (layout : Option Layout) → (style : Option ElStyle) →
      (cls label text placeholder : Option String) →
      (children : List Element) → Element

def Element.type : Element → String
  | .mk t _ _ _ _ _ _ _ _ _ _ _ => t

def Element.x : Element → Option Int
  | .mk _ v _ _ _ _ _ _ _ _ _ _ => v

def Element.y : Element → Option Int
  | .mk _ _ v _ _ _ _ _ _ _ _ _ => v

def Element.width : Element → Option Int
  | .mk _ _ _ v _ _ _ _ _ _ _ _ => v

def Element.height : Element → Option Int
  | .mk _ _ _ _ v _ _ _ _ _ _ _ => v

def Element.layout : Element → Option Layout
  | .mk _ _ _ _ _ v _ _ _ _ _ _ => v

def Element.style : Element → Option ElStyle
  | .mk _ _ _ _ _ _ v _ _ _ _ _ => v

def Element.cls : Element → Option String
  | .mk _ _ _ _ _ _ _ v _ _ _ _ => v

def Element.label : Element → Option String
  | .mk _ _ _ _ _ _ _ _ v _ _ _ => v

def Element.text : Element → Option String
  | .mk _ _ _ _ _ _ _ _ _ v _ _ => v

def Element.placeholder : Element → Option String
  | .mk _ _ _ _ _ _ _ _ _ _ v _ => v

def Element.children : Element → List Element
  | .mk _ _ _ _ _ _ _ _ _ _ _ v => v

/-- JavaScript `a || d` for a numeric field: `undefined` and `0` are falsy
and fall back to the default `d`. -/
def orNum (a : Option Int) (d : Int) : Int :=
  match a with
  | none => d
  | some n => if n = 0 then d else n

/-- JavaScript `a || d` for a string field: `undefined` and the empty
string are falsy and fall back to the default `d`. -/
def orStr (a : Option String) (d : String) : String :=
  match a with
  | none => d
  | some s => if s = "" then d else s

/-- JavaScript `String.prototype.trim`: drop whitespace from both ends. -/
def jsTrim (s : String) : String :=
  String.mk (((s.data.dropWhile Char.isWhitespace).reverse.dropWhile
    Char.isWhitespace).reverse)

/-- Line `left:${el.x || 0}px;` of the style template literal. -/
def styleLeft (el : Element) : String :=
  "left:" ++ toString (orNum el.x 0) ++ "px;"

/-- Line `top:${el.y || 0}px;` of the style template literal. -/
def styleTop (el : Element) : String :=
  "top:" ++ toString (orNum el.y 0) ++ "px;"

/-- Line `width:${el.width || 100}px;` of the style template literal. -/
def styleWidth (el : Element) : String :=
  "width:" ++ toString (orNum el.width 100) ++ "px;"

/-- Line `height:${el.height || 40}px;` of the style template literal. -/
def styleHeight (el : Element) : String :=
  "height:" ++ toString (orNum el.height 40) ++ "px;"

/-- `${el.style?.background ? background:...; : ""}`. -/
def bgPart (el : Element) : String :=
  match el.style with
  | none => ""
  | some st =>
    match st.background with
    | none => ""
    | some b => if b = "" then "" else "background:" ++ b ++ ";"

/-- `${el.style?.color ? color:...; : ""}`. -/
def colorPart (el : Element) : String :=
  match el.style with
  | none => ""
  | some st =>
    match st.color with
    | none => ""
    | some c => if c = "" then "" else "color:" ++ c ++ ";"

/-- `${el.style?.fontSize ? font-size:...px; : ""}` (`0` is falsy). -/
def fontSizePart (el : Element) : String :=
  match el.style with
  | none => ""
  | some st =>
    match st.fontSize with
    | none => ""
    | some n => if n = 0 then "" else "font-size:" ++ toString n ++ "px;"

/-- `${el.style?.fontWeight ? font-weight:...; : ""}`. -/
def fontWeightPart (el : Element) : String :=
  match el.style with
  | none => ""
  | some st =>
    match st.fontWeight with
    | none => ""
    | some w => if w = "" then "" else "font-weight:" ++ w ++ ";"

/-- The style template literal of `renderElement`, before `.trim()`,
with the exact whitespace of the source (six spaces of indentation per
line, four before the closing backtick). -/
def styleRaw (el : Element) : String :=
  "\n      position:absolute;\n      " ++ styleLeft el ++
  "\n      " ++ styleTop el ++
  "\n      " ++ styleWidth el ++
  "\n      " ++ styleHeight el ++
  "\n      " ++ bgPart el ++
  "\n      " ++ colorPart el ++
  "\n      " ++ fontSizePart el ++
  "\n      " ++ fontWeightPart el ++
  "\n    "

/-- `const style = \`...\`.trim();` in `renderElement`. -/
def styleFor (el : Element) : String := jsTrim (styleRaw el)

/-- `const cls = el.class ? \`class="${el.class}"\` : "";`. -/
def clsAttr (el : Element) : String :=
  match el.cls with
  | none => ""
  | some c => if c = "" then "" else "class=\"" ++ c ++ "\""

/-- `renderElement` of `renderHtml.js`: buttons, texts and inputs map to
fixed tags; every other `type` (including `container`, `grid`, `flex` and
all remaining documented kinds) returns the empty string — the source
comments this last branch `// Unrecognized types are skipped`. The
`children` field is never consulted. -/
def renderElement (el : Element) : String :=
  if el.type = "button" then
    "<button " ++ clsAttr el ++ " style=\"" ++ styleFor el ++ "\">" ++
      orStr el.label "Button" ++ "</button>"
  else if el.type = "text" then
    "<div " ++ clsAttr el ++ " style=\"" ++ styleFor el ++ "\">" ++
      orStr el.text "Text" ++ "</div>"
  else if el.type = "input" then
    "<input " ++ clsAttr el ++ " style=\"" ++ styleFor el ++
      "\" placeholder=\"" ++ orStr el.placeholder "" ++ "\" />"
  else ""

/-- The argument of `renderDSLtoHTML ({ width, height, elements, css })`. -/
structure DSLDocument where
  width : Int
  height : Int
  elements : List Element
  css : String

/-- The fixed text of the outer template literal up to the generated
`body` rule. -/
def docHead : String :=
  "\n    <!DOCTYPE html>\n    <html>\n    <head>\n      <meta charset=\"utf-8\" />\n      <style>\n        "

/-- The generated `body \x7b ... \x7d` CSS rule of the outer template, with
the document's width and height interpolated. -/
def genBodyRule (d : DSLDocument) : String :=
  "body \x7b\n          margin: 0;\n          position: relative;\n          width: " ++
  toString d.width ++ "px;\n          height: " ++ toString d.height ++
  "px;\n        \x7d"

/-- The `</style>` line that follows the interpolated `${css}`. -/
def styleClose : String := "\n      </style>"

/-- The tail of the outer template: closing the head, the interpolated
`${body}` (the element renderings joined by newlines), and the closing
tags. -/
def docTail (d : DSLDocument) : String :=
  "\n    </head>\n    <body>\n      " ++
  String.intercalate "\n" (d.elements.map renderElement) ++
  "\n    </body>\n    </html>\n  "

/-- `renderDSLtoHTML` of `renderHtml.js`: the outer template literal,
assembled byte for byte from the pieces above. -/
def renderDSLtoHTML (d : DSLDocument) : String :=
  docHead ++ genBodyRule d ++ "\n        " ++ d.css ++ styleClose ++ docTail d

/-- Number of occurrences of `needle` in `hay` (at every start position). -/
def countOccurs (needle : List Char) : List Char → Nat
  | [] => if needle = [] then 1 else 0
  | c :: t => (if needle.isPrefixOf (c :: t) then 1 else 0) + countOccurs needle t

/-- Whether `needle` occurs as a contiguous substring of `hay`. -/
def containsSub (needle : List Char) : List Char → Bool
  | [] => needle.isEmpty
  | c :: t => needle.isPrefixOf (c :: t) || containsSub needle t

/-- Substring test on strings. -/
def strContains (hay needle : String) : Bool :=
  containsSub needle.data hay.data

/-- Substring occurrence count on strings. -/
def strCount (hay needle : String) : Nat :=
  countOccurs needle.data hay.data

/-!
Embedding of the `POST /render` handler of `server.js`:

```
const { width = 800, height = 600, elements = [], css = "" } = req.body;
const html = renderDSLtoHTML({ width, height, elements, css });
const browser = await puppeteer.connect({ browserWSEndpoint: ... });
const page = await browser.newPage();
await page.setViewport({ width, height });
await page.setContent(html, { waitUntil: "domcontentloaded" });
const screenshot = await page.screenshot({ type: "png" });
await page.close(); // Avoid memory leaks
const base64 = `data:image/png;base64,${screenshot.toString("base64")}`;
res.json({ image_base64: base64 });
```

The handler's interactions with the remote browser are recorded as a
trace of effects in program order. `page.setContent` and
`page.screenshot` are the `await`s that can reject while a page is open;
a rejection aborts the async function at that point (there is no
`try`/`finally` in the source), which the embedding models with two
booleans saying whether each of those steps throws. The bytes returned
by `page.screenshot` come from the external browser, so they are a
parameter. -/

/-- A `POST /render` request body: each of the four fields may be absent,
in which case the handler's destructuring defaults apply. -/
structure ReqBody where
  width : Option Int := none
  height : Option Int := none
  elements : Option (List Element) := none
  css : Option String := none

/-- `const { width = 800, height = 600, elements = [], css = "" } =
req.body;` — destructuring defaults fire on absent fields only. -/
def destructure (b : ReqBody) : DSLDocument :=
  { width := b.width.getD 800
    height := b.height.getD 600
    elements := b.elements.getD []
    css := b.css.getD "" }

/-- One observable browser interaction of the handler. -/
inductive Effect : Type where
  | browserConnect
  | newPage
  | setViewport (width height : Int)
  | setContent (html : String)
  | screenshot
  | pageClose
deriving DecidableEq

/-- The JSON body `res.json({ image_base64: ... })` sent on success; it
carries the single field `image_base64` and nothing else (in particular
no content hash). -/
structure Response where
  image_base64 : String
deriving DecidableEq

/-- The `POST /render` handler: the trace of browser effects it performs,
in program order, together with the response it sends (`none` when the
async function aborts on a rejected `await`). `shot` is the base64 text
of the screenshot bytes delivered by the external browser;
`contentThrows` / `screenshotThrows` say whether `page.setContent` /
`page.screenshot` reject. Every invocation, whatever the request,
begins by connecting to the browser endpoint; `page.close` is executed
only after a successful screenshot, as in the source. -/
def renderHandler (b : ReqBody) (shot : String)
    (contentThrows screenshotThrows : Bool) : List Effect × Option Response :=
  let doc := destructure b
  let html := renderDSLtoHTML doc
  let opened : List Effect :=
    [Effect.browserConnect, Effect.newPage,
     Effect.setViewport doc.width doc.height, Effect.setContent html]
  if contentThrows then
    (opened, none)
  else if screenshotThrows then
    (opened ++ [Effect.screenshot], none)
  else
    (opened ++ [Effect.screenshot, Effect.pageClose],
     some { image_base64 := "data:image/png;base64," ++ shot })

/-- A sequence of `/render` calls. The handler keeps no state between
requests (no cache, no pool table), so the trace of each call is
independent of the others; in particular the traces of concurrent
identical requests are the traces of the individual requests. -/
def handleSequence (reqs : List ReqBody) (shot : String) :
    List (List Effect × Option Response) :=
  reqs.map (fun b => renderHandler b shot false false)

/-- Number of `puppeteer.connect` calls recorded in a trace. -/
def connectCount : List Effect → Nat
  | [] => 0
  | Effect.browserConnect :: t => connectCount t + 1
  | _ :: t => connectCount t

/-!  Concrete inputs used by the theorems below. -/

/-- The button of the documentation's example document, written in the
documented nested-`layout` form:
`\x7b"type":"button","layout":\x7b"x":150,"y":80,"width":100,"height":40\x7d,"label":"Click Me!"\x7d`. -/
def exButton : Element :=
  .mk "button" none none none none
    (some { x := some 150, y := some 80, width := some 100, height := some 40 })
    none none (some "Click Me!") none none []

/-- The example document `\x7b"width":400,"height":200,"elements":[exButton]\x7d`. -/
def exDoc : DSLDocument :=
  { width := 400, height := 200, elements := [exButton], css := "" }

/-- The example document as a `POST /render` body. -/
def exBody : ReqBody :=
  { width := some 400, height := some 200, elements := some [exButton], css := some "" }

/-- The out-of-bounds document `\x7b"width":50,"height":200,"elements":[]\x7d`. -/
def doc50 : DSLDocument :=
  { width := 50, height := 200, elements := [], css := "" }

/-- The out-of-bounds document as a `POST /render` body. -/
def body50 : ReqBody :=
  { width := some 50, height := some 200, elements := some [], css := some "" }

/-- A text child element, `\x7b"type":"text","text":"Container Content",...\x7d`. -/
def childText : Element :=
  .mk "text" (some 0) (some 0) (some 360) (some 30) none none none none
    (some "Container Content") none []

/-- A container element with one non-empty child list, as in the
documentation's container example. -/
def exContainer : Element :=
  .mk "container" (some 0) (some 0) (some 400) (some 300) none none none none
    none none [childText]

/-- A document whose only top-level element is `exContainer`. -/
def containerDoc : DSLDocument :=
  { width := 400, height := 300, elements := [exContainer], css := "" }

/-- A button whose label carries HTML markup. -/
def evilBtn : Element :=
  .mk "button" none none none none none none none
    (some "<script>alert(1)</script>") none none []

/-- A button with explicit zero width and height and missing x and y. -/
def zeroEl : Element :=
  .mk "button" none none (some 0) (some 0) none none none none none none []

/-! ## Helper lemmas -/

/-- String concatenation is associative (shared by several proofs). -/
theorem strAppendAssoc (a b c : String) : (a ++ b) ++ c = a ++ (b ++ c) := by
  apply String.ext
  simp

/-- Every invocation of the handler that completes performs exactly one
browser connection and sends a response. -/
theorem renderHandler_connects (b : ReqBody) (shot : String) :
    connectCount (renderHandler b shot false false).1 = 1 ∧
    (renderHandler b shot false false).2.isSome = true :=
  ⟨rfl, rfl⟩

/-! ## Claim theorems -/

/-- Claim C1. The spec claims a repeated identical `render(D,O)` call is
served from a content-hash cache without acquiring a browser. The code
has no cache and no content hash: handling the same request body twice
produces two traces, each performing its own browser connection and
full render, and each response carries only the `image_base64` field. -/
theorem second_identical_call_reconnects :
    (handleSequence [exBody, exBody] "iVBORpng").map
      (fun r => (connectCount r.1, r.2.isSome)) = [(1, true), (1, true)] := by
  rfl

/-- Claim C2. The spec claims a fixed browser pool of default size 5
whose `acquire` fails with `PoolExhausted` when no instance frees up. The
code has no pool: each of `n` requests unconditionally opens its own
browser connection (`n` connections for `n` requests, with no bound at 5
or anywhere else), and no request ever fails for lack of an instance. -/
theorem every_request_opens_a_connection (n : Nat) (b : ReqBody) (shot : String) :
    ((handleSequence (List.replicate n b) shot).map
      (fun r => connectCount r.1)).sum = n ∧
    (handleSequence (List.replicate n b) shot).all
      (fun r => r.2.isSome) = true := by
  induction n with
  | zero => exact ⟨rfl, rfl⟩
  | succ k ih =>
    rw [List.replicate_succ]
    simp only [handleSequence, List.map_cons, List.sum_cons, List.all_cons]
    simp only [handleSequence] at ih
    refine ⟨?_, ?_⟩
    · rw [(renderHandler_connects b shot).1, ih.1]
      omega
    · rw [(renderHandler_connects b shot).2, ih.2]
      rfl

/-- Claim C3. `renderDSLtoHTML` is embedded as a pure Lean function —
the source reads nothing but its argument and mutates nothing — so
identical documents compile to byte-identical HTML strings. -/
theorem renderDSLtoHTML_deterministic (d1 d2 : DSLDocument) (h : d1 = d2) :
    renderDSLtoHTML d1 = renderDSLtoHTML d2 := by
  rw [h]

/-- Witness for C3 at the concrete example document. -/
theorem renderDSLtoHTML_deterministic_witness :
    renderDSLtoHTML exDoc = renderDSLtoHTML exDoc :=
  renderDSLtoHTML_deterministic exDoc exDoc rfl

/-- Claim C4. The spec claims `\x7b"width":50,"height":200,"elements":[]\x7d`
fails validation with an error naming the 100-pixel minimum. The code
performs no validation at all: the handler renders this document to a
successful response, the compiled HTML sizes the body at the
out-of-bounds `width: 50px`, and the string `100` (hence any message
about a 100-pixel bound) appears nowhere in the output. -/
theorem width50_is_rendered_not_rejected :
    (renderHandler body50 "iVBORpng" false false).2.isSome = true ∧
    strContains (renderDSLtoHTML doc50) "width: 50px;" = true ∧
    strContains (renderDSLtoHTML doc50) "100" = false := by
  refine ⟨rfl, ?_, ?_⟩ <;> decide

/-- Claim C5. The spec claims the documented example (its positions given
in a nested `layout` object) compiles to a button at
left:150px/top:80px/width:100px/height:40px. The compiler reads `x`,
`y`, `width`, `height` from the element's top level and never reads
`layout`, so the example compiles to exactly one absolutely-positioned
button carrying the defaults left:0px/top:0px/width:100px/height:40px,
and the coordinates 150 and 80 appear nowhere. -/
theorem example_button_layout_is_ignored :
    strCount (renderDSLtoHTML exDoc) "<button" = 1 ∧
    strContains (renderDSLtoHTML exDoc) "position:absolute;" = true ∧
    strContains (renderDSLtoHTML exDoc) "left:0px;" = true ∧
    strContains (renderDSLtoHTML exDoc) "top:0px;" = true ∧
    strContains (renderDSLtoHTML exDoc) "width:100px;" = true ∧
    strContains (renderDSLtoHTML exDoc) "height:40px;" = true ∧
    strContains (renderDSLtoHTML exDoc) "left:150px" = false ∧
    strContains (renderDSLtoHTML exDoc) "top:80px" = false := by
  refine ⟨?_, ?_, ?_, ?_, ?_, ?_, ?_, ?_⟩ <;> decide

/-- Claim C6. The spec claims container elements render their children
recursively inside the parent node. In the code, `renderElement` handles
only `button`, `text` and `input`; a `container` with a non-empty child
list falls through to the branch the source comments
`// Unrecognized types are skipped` and compiles to the empty string, so
neither the container nor its children reach the output document. -/
theorem container_and_children_are_skipped :
    renderElement exContainer = "" ∧
    exContainer.children = [childText] ∧
    strContains (renderDSLtoHTML containerDoc) "Container Content" = false := by
  refine ⟨rfl, rfl, ?_⟩
  decide

/-- Claim C7. The spec claims the page opened for a render attempt is
closed on both the success path and every failure path. In the code
`await page.close()` is straight-line code after `page.setContent` and
`page.screenshot`, with no `try`/`finally`: when either of those awaits
rejects, the handler aborts and `pageClose` never appears in the trace;
it appears only on the success path. -/
theorem page_closed_only_on_success :
    Effect.pageClose ∉ (renderHandler exBody "iVBORpng" true false).1 ∧
    Effect.pageClose ∉ (renderHandler exBody "iVBORpng" false true).1 ∧
    Effect.pageClose ∈ (renderHandler exBody "iVBORpng" false false).1 := by
  refine ⟨?_, ?_, ?_⟩ <;> decide

/-- Claim C8. The compiled document is the fixed head, then the generated
`body \x7b...\x7d` rule, then the document's custom `css` verbatim, then
`</style>` and the tail: the custom css is emitted unchanged after the
generated CSS rules (and before the style element closes), so it can
override them. -/
theorem custom_css_after_generated_rules (d : DSLDocument) :
    ∃ pre post, renderDSLtoHTML d = pre ++ d.css ++ post ∧
      (∃ p, pre = p ++ genBodyRule d ++ "\n        ") ∧
      (∃ q, post = "\n      </style>" ++ q) := by
  refine ⟨docHead ++ genBodyRule d ++ "\n        ", styleClose ++ docTail d,
    ?_, ⟨docHead, rfl⟩, ⟨docTail d, rfl⟩⟩
  simp only [renderDSLtoHTML, strAppendAssoc]

/-- Claim C9. `label`, `text`, `placeholder` and `class` values are
interpolated into the output character for character, with no HTML
escaping: whenever the field is a non-empty string `s` (JavaScript `||`
and `?:` treat the empty string as falsy), the rendered element is
literally some prefix, then `s` itself, then a suffix — markup characters
in `s` included. -/
theorem fields_interpolated_verbatim (el : Element) (s : String) (hs : s ≠ "") :
    (el.type = "button" → el.label = some s →
      ∃ pre post, renderElement el = pre ++ s ++ post) ∧
    (el.type = "text" → el.text = some s →
      ∃ pre post, renderElement el = pre ++ s ++ post) ∧
    (el.type = "input" → el.placeholder = some s →
      ∃ pre post, renderElement el = pre ++ s ++ post) ∧
    (el.type = "button" → el.cls = some s →
      ∃ pre post, renderElement el = pre ++ s ++ post) ∧
    (el.type = "text" → el.cls = some s →
      ∃ pre post, renderElement el = pre ++ s ++ post) ∧
    (el.type = "input" → el.cls = some s →
      ∃ pre post, renderElement el = pre ++ s ++ post) := by
  refine ⟨?_, ?_, ?_, ?_, ?_, ?_⟩
  · intro ht hl
    refine ⟨"<button " ++ clsAttr el ++ " style=\"" ++ styleFor el ++ "\">",
      "</button>", ?_⟩
    simp only [renderElement, ht, if_pos, orStr, hl, if_neg hs, strAppendAssoc]
  · intro ht hl
    refine ⟨"<div " ++ clsAttr el ++ " style=\"" ++ styleFor el ++ "\">",
      "</div>", ?_⟩
    simp [renderElement, ht, orStr, hl, hs, strAppendAssoc]
  · intro ht hl
    refine ⟨"<input " ++ clsAttr el ++ " style=\"" ++ styleFor el ++
      "\" placeholder=\"", "\" />", ?_⟩
    simp [renderElement, ht, orStr, hl, hs, strAppendAssoc]
  · intro ht hc
    refine ⟨"<button class=\"",
      "\"" ++ " style=\"" ++ styleFor el ++ "\">" ++ orStr el.label "Button" ++
        "</button>", ?_⟩
    simp [renderElement, ht, clsAttr, hc, hs, strAppendAssoc]
    rw [← strAppendAssoc]
    rfl
  · intro ht hc
    refine ⟨"<div class=\"",
      "\"" ++ " style=\"" ++ styleFor el ++ "\">" ++ orStr el.text "Text" ++
        "</div>", ?_⟩
    simp [renderElement, ht, clsAttr, hc, hs, strAppendAssoc]
    rw [← strAppendAssoc]
    rfl
  · intro ht hc
    refine ⟨"<input class=\"",
      "\"" ++ " style=\"" ++ styleFor el ++ "\" placeholder=\"" ++
        orStr el.placeholder "" ++ "\" />", ?_⟩
    simp [renderElement, ht, clsAttr, hc, hs, strAppendAssoc]
    rw [← strAppendAssoc]
    rfl

/-- Witness for C9: a label carrying a script tag is emitted verbatim
inside the button element. -/
theorem fields_interpolated_verbatim_witness :
    ∃ pre post,
      renderElement evilBtn = pre ++ "<script>alert(1)</script>" ++ post :=
  (fields_interpolated_verbatim evilBtn "<script>alert(1)</script>"
    (by decide)).1 rfl rfl

/-- Claim C10. The positional defaulting of `renderElement` uses
JavaScript `||`, for which both `undefined` and `0` are falsy: a missing
`x`/`y` renders as left:0px/top:0px, a missing `width`/`height` as
width:100px/height:40px, an explicit `width` of 0 also as width:100px and
an explicit `height` of 0 as height:40px; consequently the emitted width
and height values are never zero. -/
theorem falsy_defaults_never_zero_size (el : Element) :
    (el.x = none → styleLeft el = "left:0px;") ∧
    (el.y = none → styleTop el = "top:0px;") ∧
    (el.width = none → styleWidth el = "width:100px;") ∧
    (el.height = none → styleHeight el = "height:40px;") ∧
    (el.width = some 0 → styleWidth el = "width:100px;") ∧
    (el.height = some 0 → styleHeight el = "height:40px;") ∧
    orNum el.width 100 ≠ 0 ∧ orNum el.height 40 ≠ 0 := by
  refine ⟨?_, ?_, ?_, ?_, ?_, ?_, ?_, ?_⟩
  · intro h; simp only [styleLeft, orNum, h]; decide
  · intro h; simp only [styleTop, orNum, h]; decide
  · intro h; simp only [styleWidth, orNum, h]; decide
  · intro h; simp only [styleHeight, orNum, h]; decide
  · intro h; simp only [styleWidth, orNum, h]; decide
  · intro h; simp only [styleHeight, orNum, h]; decide
  · cases hw : el.width with
    | none => simp [orNum]
    | some n =>
      by_cases hn : n = 0
      · simp [orNum, hn]
      · simp [orNum, hn]
  · cases hh : el.height with
    | none => simp [orNum]
    | some n =>
      by_cases hn : n = 0
      · simp [orNum, hn]
      · simp [orNum, hn]

/-- Witness for C10 at a button with missing x/y and explicit zero
width/height. -/
theorem falsy_defaults_never_zero_size_witness :
    styleLeft zeroEl = "left:0px;" ∧ styleTop zeroEl = "top:0px;" ∧
    styleWidth zeroEl = "width:100px;" ∧ styleHeight zeroEl = "height:40px;" := by
  have h := falsy_defaults_never_zero_size zeroEl
  exact ⟨h.1 rfl, h.2.1 rfl, h.2.2.2.2.1 rfl, h.2.2.2.2.2.1 rfl⟩

end DslToPng
